import Mathlib

/-!
Verification development for the colosseum profile crawler
(colosseum_scraper.py, colosseum_cookie_handler.py, colosseum_database.py,
colosseum_main.py).

The Python code passes loosely structured JSON-like values around (dicts
read with .get, truthiness tests, isinstance dispatch).  We embed those
values as `PValue` and dicts as association lists (`RawRecord`).  List
values are modelled as lists of strings: no code path of this repository
ever inspects an element of such a list (lists are passed through whole,
or a single string is wrapped into a one-element list), so the element
type does not matter for any of the verified properties.  JSON parsing
(stdlib json.loads) is an external library call and is modelled as an
abstract parameter of type String → Option PValue.
-/

/-- A Python/JSON value as used by the crawler: None, bool, int-like
number, string, or a list (elements modelled as strings, see above). -/
inductive PValue where
  | none
  | bool (b : Bool)
  | int (n : Int)
  | str (s : String)
  | list (xs : List String)
deriving DecidableEq, Repr

/-- Python truthiness (`if value:`) on the embedded values. -/
def truthy : PValue → Bool
  | PValue.none => false
  | PValue.bool b => b
  | PValue.int n => n != 0
  | PValue.str s => s != ""
  | PValue.list xs => !xs.isEmpty

/-- A Python dict as an association list (keys unique in actual dicts;
lookup takes the first matching entry). -/
abbrev RawRecord : Type := List (String × PValue)

/-- Dict lookup: `d[k]` / `k in d` combined, first matching entry. -/
def lookupR : RawRecord → String → Option PValue
  | [], _ => Option.none
  | e :: t, k => if e.1 = k then some e.2 else lookupR t k

/-- Rewrite the value stored under a key in place, when present (a dict
assignment to an existing key keeps its position). -/
def transformKey (d : RawRecord) (k : String) (g : PValue → PValue) : RawRecord :=
  d.map (fun e => if e.1 = k then (e.1, g e.2) else e)

/-- Python dict assignment `d[k] = v`: replace the value in place when
the key exists, else append the new binding at the end. -/
def pySetKey (d : RawRecord) (k : String) (v : PValue) : RawRecord :=
  if (lookupR d k).isSome then transformKey d k (fun _ => v) else d ++ [(k, v)]

/-- Python `s.startswith(p)`. -/
def pyStartsWith (s p : String) : Bool := p.data.isPrefixOf s.data

/-- Python `s.lstrip('@')`: drop every leading at sign. -/
def pyLstripAt (s : String) : String := ⟨s.data.dropWhile (fun c => c == '@')⟩

/-- Helper for Python substring membership on character lists. -/
def pyContainsSub (needle : List Char) : List Char → Bool
  | [] => needle.isEmpty
  | c :: t => needle.isPrefixOf (c :: t) || pyContainsSub needle t

/-- Python `needle in hay` on strings (substring containment). -/
def pyInStr (needle hay : String) : Bool := pyContainsSub needle.data hay.data

/-- Python `s.capitalize()`. -/
def pyCapitalize (s : String) : String :=
  match s.data with
  | [] => ""
  | c :: t => ⟨c.toUpper :: t.map Char.toLower⟩

/-! ## Normalizer (colosseum_scraper.py, _normalize_api_profiles, lines 744-829) -/

/-- The normalized profile dict built by `_normalize_api_profiles`
(colosseum_scraper.py lines 751-768).  Fields mapped through
`field_mappings` hold whatever truthy source value was picked (any
`PValue`); array fields always hold lists; `username` and `profile_url`
are strings in every record that is actually appended to the output. -/
structure Profile where
  card_index : Nat
  username : String
  display_name : Option PValue
  description : Option PValue
  location : Option PValue
  tags : List String
  languages : List String
  company : Option PValue
  looking_for_teammates : Bool
  project_description : Option PValue
  i_am_a_roles : List String
  looking_for_roles : List String
  interested_in_topics : List String
  about : Option PValue
  profile_url : String
  avatar_url : Option PValue
deriving DecidableEq, Repr

/-- Key priority list for `username` (colosseum_scraper.py line 772). -/
def usernameKeys : List String := ["username", "handle", "user_name", "userName"]

/-- Key priority list for `display_name` (line 773). -/
def displayNameKeys : List String := ["display_name", "displayName", "name", "full_name", "fullName"]

/-- Key priority list for `description` (line 774). -/
def descriptionKeys : List String := ["description", "bio", "short_bio", "shortBio"]

/-- Key priority list for `location` (line 775). -/
def locationKeys : List String := ["location", "city", "country"]

/-- Key priority list for `company` (line 776). -/
def companyKeys : List String := ["company", "organization", "org"]

/-- Key priority list for `about` (line 777). -/
def aboutKeys : List String := ["about", "bio", "description", "longBio"]

/-- Key priority list for `avatar_url` (line 778). -/
def avatarUrlKeys : List String := ["avatar_url", "avatarUrl", "avatar", "image", "profileImage"]

/-- Key priority list for `tags` (line 793). -/
def tagsKeys : List String := ["tags", "roles", "skills"]

/-- Key priority list for `languages` (line 794). -/
def languagesKeys : List String := ["languages", "language"]

/-- Key priority list for `i_am_a_roles` (line 795). -/
def iAmARolesKeys : List String := ["i_am_a_roles", "iAmARoles", "myRoles"]

/-- Key priority list for `looking_for_roles` (line 796). -/
def lookingForRolesKeys : List String := ["looking_for_roles", "lookingForRoles", "seekingRoles"]

/-- Key priority list for `interested_in_topics` (line 797). -/
def interestedTopicsKeys : List String := ["interested_in_topics", "interestedInTopics", "interests", "topics"]

/-- `field_mappings` resolution (lines 781-785): first key that is
present AND truthy wins; a present-but-falsy value is skipped. -/
def resolveField (r : RawRecord) : List String → Option PValue
  | [] => Option.none
  | k :: ks =>
    match lookupR r k with
    | some v => if truthy v then some v else resolveField r ks
    | Option.none => resolveField r ks

/-- First PRESENT key of an `array_mappings` priority list (lines
800-802): presence alone breaks the loop, truthiness is not consulted. -/
def firstPresent (r : RawRecord) : List String → Option PValue
  | [] => Option.none
  | k :: ks =>
    match lookupR r k with
    | some v => some v
    | Option.none => firstPresent r ks

/-- The coercion applied to the first present array value (lines
803-808): a list is taken as is, a string is wrapped into a one-element
list, anything else leaves the initial `[]` default in place. -/
def coerceArrayValue : Option PValue → List String
  | some (PValue.list xs) => xs
  | some (PValue.str s) => [s]
  | _ => []

/-- Array-field resolution: first present key, then the coercion. -/
def resolveArray (r : RawRecord) (ks : List String) : List String :=
  coerceArrayValue (firstPresent r ks)

/-- Boolean field handling (lines 810-814). -/
def resolveLookingForTeammates (r : RawRecord) : Bool :=
  match lookupR r "looking_for_teammates" with
  | some v => truthy v
  | Option.none =>
    match lookupR r "lookingForTeammates" with
    | some v => truthy v
    | Option.none => false

/-- The at-sign fix for usernames (lines 788-789): a truthy username not
starting with "@" gets "@" prepended; anything else is unchanged. -/
def ensureAtSign (s : String) : String :=
  if truthy (PValue.str s) && !(pyStartsWith s "@") then "@" ++ s else s

/-- `self.base_url` (colosseum_scraper.py line 34). -/
def base_url : String := "https://arena.colosseum.org"

/-- Profile URL built from the username (lines 817-819). -/
def mkProfileUrl (u : String) : String := base_url ++ "/profiles/" ++ pyLstripAt u

/-- Outcome of normalizing a single raw record: appended to the output,
silently dropped (no username resolved, lines 821-823), or dropped with
a printed error (the `except` at lines 825-827; raised by the
`.startswith` attribute access when the resolved username value is a
truthy non-string). -/
inductive NormOutcome where
  | ok (p : Profile)
  | skipSilent
  | skipError
deriving DecidableEq, Repr

/-- Normalization of one raw API record at enumeration index `i`
(colosseum_scraper.py lines 748-827). -/
def normalizeRecord (i : Nat) (r : RawRecord) : NormOutcome :=
  match resolveField r usernameKeys with
  | Option.none => NormOutcome.skipSilent
  | some (PValue.str s) =>
    let u := ensureAtSign s
    if truthy (PValue.str u) then
      NormOutcome.ok {
        card_index := i
        username := u
        display_name := resolveField r displayNameKeys
        description := resolveField r descriptionKeys
        location := resolveField r locationKeys
        tags := resolveArray r tagsKeys
        languages := resolveArray r languagesKeys
        company := resolveField r companyKeys
        looking_for_teammates := resolveLookingForTeammates r
        project_description := Option.none
        i_am_a_roles := resolveArray r iAmARolesKeys
        looking_for_roles := resolveArray r lookingForRolesKeys
        interested_in_topics := resolveArray r interestedTopicsKeys
        about := resolveField r aboutKeys
        profile_url := mkProfileUrl u
        avatar_url := resolveField r avatarUrlKeys }
    else NormOutcome.skipSilent
  | some _ => NormOutcome.skipError

/-- The enumeration loop of `_normalize_api_profiles`: index `i` counts
every input record (also the dropped ones), only `ok` outcomes are
appended. -/
def normAux (i : Nat) : List RawRecord → List Profile
  | [] => []
  | r :: rs =>
    match normalizeRecord i r with
    | NormOutcome.ok p => p :: normAux (i + 1) rs
    | _ => normAux (i + 1) rs

/-- `_normalize_api_profiles` (colosseum_scraper.py lines 744-829). -/
def _normalize_api_profiles (rs : List RawRecord) : List Profile := normAux 0 rs

/-- View of an option-valued profile field as the dict value it is in
the Python record (None for absence of data). -/
def optPV (o : Option PValue) : PValue := o.getD PValue.none

/-- The dict produced for a normalized profile, with the insertion order
of the literal at colosseum_scraper.py lines 751-768.  Feeding
`_normalize_api_profiles` its own output means feeding it these dicts. -/
def profileToRaw (p : Profile) : RawRecord :=
  [("card_index", PValue.int (Int.ofNat p.card_index)),
   ("username", PValue.str p.username),
   ("display_name", optPV p.display_name),
   ("description", optPV p.description),
   ("location", optPV p.location),
   ("tags", PValue.list p.tags),
   ("languages", PValue.list p.languages),
   ("company", optPV p.company),
   ("looking_for_teammates", PValue.bool p.looking_for_teammates),
   ("project_description", optPV p.project_description),
   ("i_am_a_roles", PValue.list p.i_am_a_roles),
   ("looking_for_roles", PValue.list p.looking_for_roles),
   ("interested_in_topics", PValue.list p.interested_in_topics),
   ("about", optPV p.about),
   ("profile_url", PValue.str p.profile_url),
   ("avatar_url", optPV p.avatar_url)]

/-- Re-normalization keeps every field except `card_index` (which is
re-enumerated) and `about` (which the second pass backfills from
`description`, because "description" appears in the `about` key priority
list and is a key of the normalized dict).  `stableView` masks exactly
those two fields. -/
def stableView (p : Profile) : Profile :=
  { p with card_index := 0, about := Option.none }

/-- The five collection-valued target fields of the normalizer
(colosseum_scraper.py lines 792-798). -/
inductive CollField where
  | tags
  | languages
  | iAmARoles
  | lookingForRoles
  | interestedInTopics
deriving DecidableEq, Repr

/-- The key priority list of a collection field. -/
def CollField.apiKeys : CollField → List String
  | CollField.tags => tagsKeys
  | CollField.languages => languagesKeys
  | CollField.iAmARoles => iAmARolesKeys
  | CollField.lookingForRoles => lookingForRolesKeys
  | CollField.interestedInTopics => interestedTopicsKeys

/-- The value a normalized Profile holds for a collection field. -/
def CollField.get : CollField → Profile → List String
  | CollField.tags, p => p.tags
  | CollField.languages, p => p.languages
  | CollField.iAmARoles, p => p.i_am_a_roles
  | CollField.lookingForRoles, p => p.looking_for_roles
  | CollField.interestedInTopics, p => p.interested_in_topics

/-! ## Detail merge (colosseum_scraper.py, click_profile_and_extract_details,
lines 426-441; the merge loop is lines 430-432) -/

/-- The merge of the side-panel detail dict into the card profile dict:
`for key, value in detailed_info.items(): if value: profile[key] = value`
(colosseum_scraper.py lines 430-432).  Only truthy detail values
override; falsy or missing detail values leave the summary value. -/
def merge_detailed_info (profile detail : RawRecord) : RawRecord :=
  detail.foldl (fun acc e => if truthy e.2 then pySetKey acc e.1 e.2 else acc) profile

/-! ## Cookie loader (colosseum_cookie_handler.py, load_colosseum_cookies,
lines 12-100).  File IO and JSON decoding happen before the loop we
model; the loop receives the decoded cookie list and the current time. -/

/-- One entry of the exported cookie file, with the keys the loader
reads (each read with .get, so each may be absent).  `expirationDate`
(epoch seconds) is modelled as an integer. -/
structure RawCookie where
  domain : Option String
  name : Option String
  value : Option String
  path : Option String
  expirationDate : Option Int
  httpOnly : Option Bool
  secure : Option Bool
  sameSite : Option String
deriving DecidableEq, Repr

/-- A cookie in Playwright format as built by the loader; optional
fields are only present when the source cookie supplied them. -/
structure PwCookie where
  name : String
  value : Option String
  path : String
  expires : Option Int
  httpOnly : Option Bool
  secure : Option Bool
  sameSite : Option String
  domain : String
deriving DecidableEq, Repr

/-- `important_cookies` (colosseum_cookie_handler.py line 38). -/
def important_cookies : List String :=
  ["sAccessToken", "sFrontToken", "st-last-access-token-update", "__vdpl"]

/-- The expiry test of lines 49-54: `if expires and expires < current_time`.
Python truthiness makes an `expirationDate` of 0 pass as "no expiry". -/
def cookieExpired (t : Int) (c : RawCookie) : Bool :=
  match c.expirationDate with
  | some e => (e != 0) && decide (e < t)
  | Option.none => false

/-- The base Playwright cookie built at lines 57-75 (before the domain
is filled in). -/
def pwBase (c : RawCookie) : PwCookie :=
  let ss := (c.sameSite.getD "").toLower
  { name := c.name.getD ""
    value := c.value
    path := c.path.getD "/"
    expires :=
      match c.expirationDate with
      | some e => if e != 0 then some e else Option.none
      | Option.none => Option.none
    httpOnly := c.httpOnly
    secure := c.secure
    sameSite :=
      if ss = "strict" || ss = "lax" || ss = "none" then
        some (if ss != "none" then pyCapitalize ss else "None")
      else Option.none
    domain := "" }

/-- One iteration of the cookie loop (lines 40-89): the produced
Playwright cookies and the emitted expiry warnings (as the names of the
warned cookies). -/
def processCookie (t : Int) (c : RawCookie) : List PwCookie × List String :=
  if pyInStr "colosseum.org" (c.domain.getD "") = false then ([], [])
  else if cookieExpired t c then ([], [c.name.getD ""])
  else
    let base := pwBase c
    let domains :=
      if important_cookies.contains (c.name.getD "") then
        ["arena.colosseum.org", "api.colosseum.org"]
      else ["arena.colosseum.org"]
    (domains.map (fun d => { base with domain := d }), [])

/-- The cookie loop of `load_colosseum_cookies` over the decoded file
content, given the current time `t`: all produced Playwright cookies in
order, and all expiry warnings. -/
def load_colosseum_cookies (t : Int) (cs : List RawCookie) : List PwCookie × List String :=
  ((cs.map (fun c => (processCookie t c).1)).flatten,
   (cs.map (fun c => (processCookie t c).2)).flatten)

/-! ## Store adapter (colosseum_database.py) -/

/-- `internal_fields` of `_prepare_profile_data` (line 80): only
card_index. -/
def internal_fields : List String := ["card_index"]

/-- `jsonb_fields` of `_prepare_profile_data` (line 85). -/
def jsonb_fields : List String :=
  ["tags", "languages", "i_am_a_roles", "looking_for_roles", "interested_in_topics"]

/-- Remove every binding of a key from a record (dict .pop(k, None)). -/
def eraseKey (d : RawRecord) (k : String) : RawRecord :=
  d.filter (fun e => decide (e.1 ≠ k))

/-- The jsonb coercion of `_prepare_profile_data` (lines 87-99): None
becomes [], a string is replaced by its JSON parse (or [] when parsing
fails), lists and everything else stay unchanged.  `jl` models the
external stdlib json.loads. -/
def prepareJsonbValue (jl : String → Option PValue) : PValue → PValue
  | PValue.none => PValue.list []
  | PValue.str s => (jl s).getD (PValue.list [])
  | v => v

/-- `_prepare_profile_data` (colosseum_database.py lines 71-101):
drop the internal card_index field, then coerce each present jsonb
field. -/
def _prepare_profile_data (jl : String → Option PValue) (d : RawRecord) : RawRecord :=
  jsonb_fields.foldl (fun acc f => transformKey acc f (prepareJsonbValue jl))
    (eraseKey d "card_index")

/-- `_clean_profile_data` (colosseum_scraper.py lines 912-917): drop the
transient card_index and element fields before records leave the
scraper. -/
def _clean_profile_data (d : RawRecord) : RawRecord :=
  eraseKey (eraseKey d "card_index") "element"

/-- The data actually written to the store for a record handed over by
the scraper: cleaned in the scraper, prepared in the store adapter. -/
def persisted_profile_data (jl : String → Option PValue) (d : RawRecord) : RawRecord :=
  _prepare_profile_data jl (_clean_profile_data d)

/-- The backing table keyed by the username value. -/
abbrev Store : Type := List (PValue × RawRecord)

/-- The select/update-or-insert sequence of `insert_profile` (lines
46-63): full-record update when the username exists, insert
otherwise. -/
def upsertStore (db : Store) (u : PValue) (prep : RawRecord) : Store :=
  if db.any (fun e => decide (e.1 = u)) then
    db.map (fun e => if e.1 = u then (u, prep) else e)
  else db ++ [(u, prep)]

/-- `insert_profile` (colosseum_database.py lines 25-69).  A missing or
falsy username returns False (lines 37-40); `fail` models the backend
raising inside the try block (network/database error), which is caught
and turned into False (lines 67-69); otherwise the prepared record is
upserted and True is returned. -/
def insert_profile (jl : String → Option PValue) (fail : RawRecord → Bool)
    (db : Store) (d : RawRecord) : Bool × Store :=
  match lookupR d "username" with
  | Option.none => (false, db)
  | some u =>
    if truthy u then
      if fail d then (false, db)
      else (true, upsertStore db u (_prepare_profile_data jl d))
    else (false, db)

/-- `insert_batch` (colosseum_database.py lines 103-117): sequential
single-record upserts, counting the successes. -/
def insert_batch (jl : String → Option PValue) (fail : RawRecord → Bool)
    (db : Store) : List RawRecord → Nat × Store
  | [] => (0, db)
  | d :: ds =>
    let r := insert_profile jl fail db d
    let rest := insert_batch jl fail r.2 ds
    ((if r.1 then 1 else 0) + rest.1, rest.2)

/-- Whether `insert_profile` succeeds on a record: independent of the
store contents. -/
def recordUpsertOk (fail : RawRecord → Bool) (d : RawRecord) : Bool :=
  match lookupR d "username" with
  | Option.none => false
  | some u => truthy u && !(fail d)

/-! ## Crawl driver call surface (claim C1) -/

/-- The parameter names of `ColosseumScraper.scrape_all_profiles`
(colosseum_scraper.py line 919), self excluded; the function declares no
var-keyword parameter. -/
def scrape_all_profiles_params : List String := ["existing_usernames", "max_profiles"]

/-- The keyword arguments `main` passes in its call
`scraper.scrape_all_profiles(existing_usernames, max_profiles=...,
save_callback=..., reverse=...)` (colosseum_main.py lines 153-158). -/
def main_scrape_call_kwargs : List String := ["max_profiles", "save_callback", "reverse"]

/-- Python call semantics: a call with keyword arguments is accepted
only when every keyword names a declared parameter (there being no
var-keyword parameter); otherwise the call raises TypeError. -/
def pyKeywordCallAccepted (params kwargs : List String) : Bool :=
  kwargs.all (fun k => params.contains k)

/-! ## Invariants of normalizer output -/

/-- A dict slot that was only ever assigned a truthy value (or left at
its None default). -/
def optTruthy (o : Option PValue) : Prop := ∀ v, o = some v → truthy v = true

/-- Shape invariant of every profile appended by
`_normalize_api_profiles`: the username is a non-empty "@"-string, the
mapped option fields hold truthy values when set, `project_description`
is never set, and `profile_url` is derived from the username. -/
structure ProfileInv (p : Profile) : Prop where
  username_ne : p.username ≠ ""
  username_at : pyStartsWith p.username "@" = true
  dn : optTruthy p.display_name
  de : optTruthy p.description
  lo : optTruthy p.location
  co : optTruthy p.company
  ab : optTruthy p.about
  av : optTruthy p.avatar_url
  pd : p.project_description = Option.none
  pu : p.profile_url = mkProfileUrl p.username

/-! ## Concrete records used by counterexamples and witnesses -/

/-- A record whose tags list holds a duplicate (claim C2). -/
def cexC2rec : RawRecord := [("username", PValue.str "u"), ("tags", PValue.list ["a", "a"])]

/-- A record whose tags field is a single string (claim C2 witness). -/
def witC2rec : RawRecord := [("username", PValue.str "u"), ("tags", PValue.str "single")]

/-- The profile normalized from `witC2rec`. -/
def witC2profile : Profile :=
  { card_index := 0, username := "@u", display_name := Option.none,
    description := Option.none, location := Option.none, tags := ["single"],
    languages := [], company := Option.none, looking_for_teammates := false,
    project_description := Option.none, i_am_a_roles := [], looking_for_roles := [],
    interested_in_topics := [], about := Option.none,
    profile_url := "https://arena.colosseum.org/profiles/u", avatar_url := Option.none }

/-- Summary dict for the C3 witness. -/
def witC3profile : RawRecord := [("a", PValue.str "s")]

/-- Detail dict for the C3 witness. -/
def witC3detail : RawRecord := [("a", PValue.str "d")]

/-- A record whose username resolves from the handle key without a
leading at sign (claim C4 witness). -/
def witC4rec : RawRecord := [("handle", PValue.str "bob")]

/-- The profile normalized from `witC4rec`. -/
def witC4profile : Profile :=
  { card_index := 0, username := "@bob", display_name := Option.none,
    description := Option.none, location := Option.none, tags := [],
    languages := [], company := Option.none, looking_for_teammates := false,
    project_description := Option.none, i_am_a_roles := [], looking_for_roles := [],
    interested_in_topics := [], about := Option.none,
    profile_url := "https://arena.colosseum.org/profiles/bob", avatar_url := Option.none }

/-- An input batch on which normalization is not idempotent (claim C5):
the first record resolves no username and is dropped, so the surviving
record has card_index 1 on the first pass and card_index 0 on the
second. -/
def cexC5input : List RawRecord := [[("foo", PValue.int 1)], [("username", PValue.str "u")]]

/-- A matching-domain cookie whose expirationDate 0 lies in the past but
is falsy in Python (claim C6). -/
def cexC6cookie : RawCookie :=
  { domain := some ".colosseum.org", name := some "foo", value := some "v",
    path := Option.none, expirationDate := some 0, httpOnly := Option.none,
    secure := Option.none, sameSite := Option.none }

/-- A matching-domain cookie expired at epoch 50 (claim C6 witness,
evaluated at current time 100). -/
def witC6cookie : RawCookie :=
  { domain := some ".colosseum.org", name := some "bar", value := some "v",
    path := some "/", expirationDate := some 50, httpOnly := Option.none,
    secure := Option.none, sameSite := Option.none }

/-- A matching-domain, non-expired cookie whose name is not in
`important_cookies` (claim C7). -/
def cexC7cookie : RawCookie :=
  { domain := some "arena.colosseum.org", name := some "other", value := some "v",
    path := some "/", expirationDate := Option.none, httpOnly := Option.none,
    secure := Option.none, sameSite := Option.none }

/-- A matching-domain, non-expired cookie named in `important_cookies`
(claim C7 witness). -/
def witC7cookie : RawCookie :=
  { domain := some ".colosseum.org", name := some "sAccessToken", value := some "tok",
    path := some "/", expirationDate := some 200, httpOnly := some true,
    secure := some true, sameSite := some "lax" }

/-- A record whose tags field is None (claim C9): the jsonb coercion
rewrites it to an empty list, so it is not passed through unchanged. -/
def cexC9rec : RawRecord := [("username", PValue.str "u"), ("tags", PValue.none)]

/-- A record carrying both transient fields and a list-valued tags field
(claim C9 witness). -/
def witC9rec : RawRecord :=
  [("username", PValue.str "u"), ("card_index", PValue.int 3),
   ("element", PValue.str "handle"), ("tags", PValue.list ["x"])]

/-- A record with a resolvable username (claim C10 witness). -/
def witC10rec : RawRecord := [("username", PValue.str "u")]

/-- A record from which no username key resolves (claim C10 witness). -/
def witC10badrec : RawRecord := [("x", PValue.int 1)]

/-- The profile normalized from `witC10rec`. -/
def witC10profile : Profile :=
  { card_index := 0, username := "@u", display_name := Option.none,
    description := Option.none, location := Option.none, tags := [],
    languages := [], company := Option.none, looking_for_teammates := false,
    project_description := Option.none, i_am_a_roles := [], looking_for_roles := [],
    interested_in_topics := [], about := Option.none,
    profile_url := "https://arena.colosseum.org/profiles/u", avatar_url := Option.none }

/-! # Theorems -/

/-! ## Basic lemmas -/

theorem str_ne_of_truthy {s : String} (h : truthy (PValue.str s) = true) : s ≠ "" := by
  simpa [truthy] using h

theorem truthy_str_of_ne {s : String} (h : s ≠ "") : truthy (PValue.str s) = true := by
  simpa [truthy]

theorem at_append_data (s : String) : ("@" ++ s).data = '@' :: s.data := rfl

theorem at_append_ne (s : String) : ("@" ++ s) ≠ "" := by
  intro h
  have h2 : '@' :: s.data = [] := by rw [← at_append_data s, h]
  exact List.cons_ne_nil _ _ h2

theorem startsWith_at_append (s : String) : pyStartsWith ("@" ++ s) "@" = true := by
  simp [pyStartsWith, at_append_data, List.isPrefixOf]

theorem ensureAtSign_of_startsWith {s : String} (h : pyStartsWith s "@" = true) :
    ensureAtSign s = s := by
  simp [ensureAtSign, h]

theorem ensureAtSign_of_not_startsWith {s : String} (hs : s ≠ "")
    (h : pyStartsWith s "@" = false) : ensureAtSign s = "@" ++ s := by
  simp [ensureAtSign, h, truthy_str_of_ne hs]

theorem ensureAtSign_ne {s : String} (hs : s ≠ "") : ensureAtSign s ≠ "" := by
  by_cases h : pyStartsWith s "@" = true
  · rw [ensureAtSign_of_startsWith h]; exact hs
  · rw [ensureAtSign_of_not_startsWith hs (by simpa using h)]; exact at_append_ne s

theorem ensureAtSign_startsWith {s : String} (hs : s ≠ "") :
    pyStartsWith (ensureAtSign s) "@" = true := by
  by_cases h : pyStartsWith s "@" = true
  · rwa [ensureAtSign_of_startsWith h]
  · rw [ensureAtSign_of_not_startsWith hs (by simpa using h)]
    exact startsWith_at_append s

theorem ensureAtSign_idem (s : String) : ensureAtSign (ensureAtSign s) = ensureAtSign s := by
  by_cases hs : s = ""
  · subst hs; rfl
  · exact ensureAtSign_of_startsWith (ensureAtSign_startsWith hs)

theorem resolveField_truthy :
    ∀ (ks : List String) (r : RawRecord) (v : PValue),
      resolveField r ks = some v → truthy v = true := by
  intro ks
  induction ks with
  | nil => intro r v h; simp [resolveField] at h
  | cons k ks ih =>
    intro r v h
    simp only [resolveField] at h
    split at h
    · split at h
      · rename_i w hl ht
        injection h with h2
        rw [← h2]; exact ht
      · exact ih r v h
    · exact ih r v h

theorem resolveField_optTruthy (r : RawRecord) (ks : List String) :
    optTruthy (resolveField r ks) :=
  fun v h => resolveField_truthy ks r v h

/-! ## Shape of normalizer outputs -/

theorem normalizeRecord_ok_fields {i : Nat} {r : RawRecord} {p : Profile}
    (h : normalizeRecord i r = NormOutcome.ok p) :
    ∃ s, resolveField r usernameKeys = some (PValue.str s) ∧
      p = { card_index := i
            username := ensureAtSign s
            display_name := resolveField r displayNameKeys
            description := resolveField r descriptionKeys
            location := resolveField r locationKeys
            tags := resolveArray r tagsKeys
            languages := resolveArray r languagesKeys
            company := resolveField r companyKeys
            looking_for_teammates := resolveLookingForTeammates r
            project_description := Option.none
            i_am_a_roles := resolveArray r iAmARolesKeys
            looking_for_roles := resolveArray r lookingForRolesKeys
            interested_in_topics := resolveArray r interestedTopicsKeys
            about := resolveField r aboutKeys
            profile_url := mkProfileUrl (ensureAtSign s)
            avatar_url := resolveField r avatarUrlKeys } := by
  unfold normalizeRecord at h
  split at h
  · exact NormOutcome.noConfusion h
  · rename_i s heq
    dsimp only [] at h
    split at h
    · injection h with h2
      exact ⟨s, heq, h2.symm⟩
    · exact NormOutcome.noConfusion h
  · exact NormOutcome.noConfusion h

theorem normalizeRecord_ok_inv {i : Nat} {r : RawRecord} {p : Profile}
    (h : normalizeRecord i r = NormOutcome.ok p) : ProfileInv p := by
  obtain ⟨s, hs, hp⟩ := normalizeRecord_ok_fields h
  have hsne : s ≠ "" := str_ne_of_truthy (resolveField_truthy _ _ _ hs)
  subst hp
  exact ⟨ensureAtSign_ne hsne, ensureAtSign_startsWith hsne,
    resolveField_optTruthy _ _, resolveField_optTruthy _ _, resolveField_optTruthy _ _,
    resolveField_optTruthy _ _, resolveField_optTruthy _ _, resolveField_optTruthy _ _,
    rfl, rfl⟩

theorem normAux_inv :
    ∀ (rs : List RawRecord) (j : Nat) (p : Profile), p ∈ normAux j rs → ProfileInv p := by
  intro rs
  induction rs with
  | nil => intro j p h; simp [normAux] at h
  | cons r t ih =>
    intro j p h
    simp only [normAux] at h
    cases hn : normalizeRecord j r with
    | ok q =>
      rw [hn] at h
      rcases List.mem_cons.mp h with h1 | h2
      · rw [h1]; exact normalizeRecord_ok_inv hn
      · exact ih (j + 1) p h2
    | skipSilent => rw [hn] at h; exact ih (j + 1) p h
    | skipError => rw [hn] at h; exact ih (j + 1) p h

/-! ## Re-normalization of the normalizer's own output -/

theorem resolve_toRaw_ite (o : Option PValue) (ho : optTruthy o) :
    (if truthy (optPV o) then some (optPV o) else Option.none) = o := by
  cases o with
  | none => simp [optPV, truthy]
  | some v => simp [optPV, ho v rfl]

theorem resolve_toRaw_display (p : Profile) (hp : optTruthy p.display_name) :
    resolveField (profileToRaw p) displayNameKeys = p.display_name := by
  have h0 : resolveField (profileToRaw p) displayNameKeys =
      (if truthy (optPV p.display_name) then some (optPV p.display_name) else Option.none) := rfl
  rw [h0, resolve_toRaw_ite _ hp]

theorem resolve_toRaw_description (p : Profile) (hp : optTruthy p.description) :
    resolveField (profileToRaw p) descriptionKeys = p.description := by
  have h0 : resolveField (profileToRaw p) descriptionKeys =
      (if truthy (optPV p.description) then some (optPV p.description) else Option.none) := rfl
  rw [h0, resolve_toRaw_ite _ hp]

theorem resolve_toRaw_location (p : Profile) (hp : optTruthy p.location) :
    resolveField (profileToRaw p) locationKeys = p.location := by
  have h0 : resolveField (profileToRaw p) locationKeys =
      (if truthy (optPV p.location) then some (optPV p.location) else Option.none) := rfl
  rw [h0, resolve_toRaw_ite _ hp]

theorem resolve_toRaw_company (p : Profile) (hp : optTruthy p.company) :
    resolveField (profileToRaw p) companyKeys = p.company := by
  have h0 : resolveField (profileToRaw p) companyKeys =
      (if truthy (optPV p.company) then some (optPV p.company) else Option.none) := rfl
  rw [h0, resolve_toRaw_ite _ hp]

theorem resolve_toRaw_avatar (p : Profile) (hp : optTruthy p.avatar_url) :
    resolveField (profileToRaw p) avatarUrlKeys = p.avatar_url := by
  have h0 : resolveField (profileToRaw p) avatarUrlKeys =
      (if truthy (optPV p.avatar_url) then some (optPV p.avatar_url) else Option.none) := rfl
  rw [h0, resolve_toRaw_ite _ hp]

theorem resolve_toRaw_about (p : Profile) (ha : optTruthy p.about) (hd : optTruthy p.description) :
    resolveField (profileToRaw p) aboutKeys =
      (match p.about with | some a => some a | Option.none => p.description) := by
  have h0 : resolveField (profileToRaw p) aboutKeys =
      (if truthy (optPV p.about) then some (optPV p.about)
       else if truthy (optPV p.description) then some (optPV p.description) else Option.none) := rfl
  rw [h0]
  cases hA : p.about with
  | some a => simp [optPV, ha a hA]
  | none =>
    simp only [optPV, Option.getD, truthy]
    rw [if_neg (by simp)]
    exact resolve_toRaw_ite _ hd

theorem resolve_toRaw_username (p : Profile) (hu : p.username ≠ "") :
    resolveField (profileToRaw p) usernameKeys = some (PValue.str p.username) := by
  have h0 : resolveField (profileToRaw p) usernameKeys =
      (if truthy (PValue.str p.username) then some (PValue.str p.username) else Option.none) := rfl
  rw [h0, if_pos (truthy_str_of_ne hu)]

theorem renorm_ok (p : Profile) (hp : ProfileInv p) (j : Nat) :
    normalizeRecord j (profileToRaw p) = NormOutcome.ok
      { p with card_index := j,
               about := (match p.about with | some a => some a | Option.none => p.description) } := by
  have hu := resolve_toRaw_username p hp.username_ne
  have he : ensureAtSign p.username = p.username := ensureAtSign_of_startsWith hp.username_at
  simp only [normalizeRecord, hu, he]
  rw [if_pos (truthy_str_of_ne hp.username_ne)]
  rw [resolve_toRaw_display p hp.dn, resolve_toRaw_description p hp.de,
      resolve_toRaw_location p hp.lo, resolve_toRaw_company p hp.co,
      resolve_toRaw_avatar p hp.av, resolve_toRaw_about p hp.ab hp.de,
      hp.pd, hp.pu]
  rfl

theorem stableView_update (p : Profile) (j : Nat) (x : Option PValue) :
    stableView { p with card_index := j, about := x } = stableView p := rfl

theorem normAux_toRaw (ps : List Profile) (hps : ∀ p ∈ ps, ProfileInv p) :
    ∀ j, (normAux j (ps.map profileToRaw)).map stableView = ps.map stableView := by
  induction ps with
  | nil => intro j; rfl
  | cons p t ih =>
    intro j
    have hp := hps p (by simp)
    simp only [List.map_cons, normAux, renorm_ok p hp j, List.map_cons]
    rw [stableView_update]
    rw [ih (fun q hq => hps q (by simp [hq])) (j + 1)]

/-! ## Claim C5 (corrected) -/

/-- C5 counterexample: normalization is NOT idempotent.  On the explicit
input `cexC5input` (one username-less record followed by one valid
record) the surviving profile has card_index 1 after one pass and
card_index 0 after re-normalizing the output, so
normalize(normalize(x)) differs from normalize(x). -/
theorem C5_counterexample :
    _normalize_api_profiles ((_normalize_api_profiles cexC5input).map profileToRaw)
      ≠ _normalize_api_profiles cexC5input := by decide

/-- C5 amended: re-running `_normalize_api_profiles` on its own output
reproduces every profile field except `card_index` (re-enumerated to the
output position) and `about` (backfilled from `description` on the
second pass); under the `stableView` mask hiding exactly those two
fields, normalize(normalize(x)) equals normalize(x) for every input. -/
theorem C5_theorem (rs : List RawRecord) :
    (_normalize_api_profiles ((_normalize_api_profiles rs).map profileToRaw)).map stableView
      = (_normalize_api_profiles rs).map stableView := by
  have h : ∀ p ∈ _normalize_api_profiles rs, ProfileInv p := fun p hp => normAux_inv rs 0 p hp
  exact normAux_toRaw (_normalize_api_profiles rs) h 0

/-! ## Claim C2 (corrected) -/

/-- C2 counterexample: collection fields are NOT deduplicated.  The
record `cexC2rec` supplies tags ["a", "a"]; the normalized profile keeps
the duplicate, so the output is not a deduplicated sequence. -/
theorem C2_counterexample :
    (_normalize_api_profiles [cexC2rec]).map Profile.tags = [["a", "a"]]
    ∧ ¬ (["a", "a"] : List String).Nodup := by decide

/-- C2 amended: for every normalized profile and every collection field,
the value is always a (never-null) list determined by the first present
source key: a source list is passed through as is (without
deduplication or empty-string filtering), a single source string yields
the one-element list holding it, and a None value or an absent key
yields the empty list. -/
theorem C2_theorem (f : CollField) (i : Nat) (r : RawRecord) (p : Profile)
    (h : normalizeRecord i r = NormOutcome.ok p) :
    (∀ xs, firstPresent r f.apiKeys = some (PValue.list xs) → CollField.get f p = xs)
    ∧ (∀ s, firstPresent r f.apiKeys = some (PValue.str s) → CollField.get f p = [s])
    ∧ (firstPresent r f.apiKeys = some PValue.none → CollField.get f p = [])
    ∧ (firstPresent r f.apiKeys = Option.none → CollField.get f p = []) := by
  obtain ⟨s, hs, hp⟩ := normalizeRecord_ok_fields h
  have hget : CollField.get f p = resolveArray r f.apiKeys := by
    subst hp; cases f <;> rfl
  refine ⟨?_, ?_, ?_, ?_⟩
  · intro xs hfp; rw [hget, resolveArray, hfp]; rfl
  · intro s2 hfp; rw [hget, resolveArray, hfp]; rfl
  · intro hfp; rw [hget, resolveArray, hfp]; rfl
  · intro hfp; rw [hget, resolveArray, hfp]; rfl

/-- C2 witness: a single-string tags value yields a one-element list. -/
theorem C2_witness : CollField.get CollField.tags witC2profile = ["single"] :=
  (C2_theorem CollField.tags 0 witC2rec witC2profile (by decide)).2.1 "single" (by decide)

/-! ## Claim C4 (confirmed) -/

/-- C4: a resolved username lacking a leading "@" is prefixed with "@";
one already starting with "@" is left unchanged; and the at-sign fix is
idempotent under repeated application. -/
theorem C4_theorem :
    (∀ (i : Nat) (r : RawRecord) (p : Profile) (s : String),
      resolveField r usernameKeys = some (PValue.str s) →
      normalizeRecord i r = NormOutcome.ok p →
      (pyStartsWith s "@" = false → p.username = "@" ++ s)
      ∧ (pyStartsWith s "@" = true → p.username = s))
    ∧ (∀ s : String, ensureAtSign (ensureAtSign s) = ensureAtSign s) := by
  constructor
  · intro i r p s hres hok
    obtain ⟨s2, hs2, hp⟩ := normalizeRecord_ok_fields hok
    rw [hres] at hs2
    injection hs2 with hs3
    injection hs3 with hs4
    subst hs4
    have hsne : s ≠ "" := str_ne_of_truthy (resolveField_truthy _ _ _ hres)
    have hu : p.username = ensureAtSign s := by rw [hp]
    constructor
    · intro hF; rw [hu, ensureAtSign_of_not_startsWith hsne hF]
    · intro hT; rw [hu, ensureAtSign_of_startsWith hT]
  · exact ensureAtSign_idem

/-- C4 witness: the handle "bob" (no leading at sign) is normalized to
username "@bob". -/
theorem C4_witness : witC4profile.username = "@" ++ "bob" :=
  (C4_theorem.1 0 witC4rec witC4profile "bob" (by decide) (by decide)).1 (by decide)

/-! ## Claim C10 (confirmed) -/

/-- C10: every profile in the normalizer's output has a non-empty
username starting with "@", and a record from which no username key
resolves to a truthy value is skipped silently (no output record, no
error path). -/
theorem C10_theorem :
    (∀ (rs : List RawRecord) (p : Profile), p ∈ _normalize_api_profiles rs →
      p.username ≠ "" ∧ pyStartsWith p.username "@" = true)
    ∧ (∀ (i : Nat) (r : RawRecord), resolveField r usernameKeys = Option.none →
      normalizeRecord i r = NormOutcome.skipSilent) := by
  constructor
  · intro rs p hp
    have h := normAux_inv rs 0 p hp
    exact ⟨h.username_ne, h.username_at⟩
  · intro i r h
    simp [normalizeRecord, h]

/-- C10 witness: a concrete output profile satisfies the username
invariant, and a concrete record without username keys is skipped
silently. -/
theorem C10_witness :
    (witC10profile.username ≠ "" ∧ pyStartsWith witC10profile.username "@" = true)
    ∧ normalizeRecord 0 witC10badrec = NormOutcome.skipSilent :=
  ⟨C10_theorem.1 [witC10rec] witC10profile (by decide),
   C10_theorem.2 0 witC10badrec (by decide)⟩

/-! ## Claim C3 (confirmed): detail-over-summary merge -/

theorem lookupR_append (d e : RawRecord) (k : String) :
    lookupR (d ++ e) k =
      (match lookupR d k with | some v => some v | Option.none => lookupR e k) := by
  induction d with
  | nil => rfl
  | cons a t ih =>
    simp only [List.cons_append, lookupR]
    by_cases h : a.1 = k
    · simp [h]
    · simp [h, ih]

theorem lookupR_transformKey_self (d : RawRecord) (k : String) (g : PValue → PValue) :
    lookupR (transformKey d k g) k = (lookupR d k).map g := by
  induction d with
  | nil => rfl
  | cons a t ih =>
    simp only [transformKey, List.map_cons]
    by_cases h : a.1 = k
    · simp [lookupR, h]
    · simp only [lookupR, if_neg h]
      simpa [transformKey] using ih

theorem lookupR_transformKey_other (d : RawRecord) (k k' : String) (g : PValue → PValue)
    (h : k' ≠ k) : lookupR (transformKey d k g) k' = lookupR d k' := by
  induction d with
  | nil => rfl
  | cons a t ih =>
    simp only [transformKey, List.map_cons]
    by_cases ha : a.1 = k
    · have hak : ¬ a.1 = k' := by rw [ha]; exact fun hh => h hh.symm
      simp only [lookupR, if_pos ha, hak, if_false, if_neg hak]
      simpa [transformKey] using ih
    · by_cases hk : a.1 = k'
      · simp [lookupR, ha, hk, h]
      · simp only [lookupR, if_neg ha, if_neg hk]
        simpa [transformKey] using ih

theorem lookup_pySetKey_self (d : RawRecord) (k : String) (v : PValue) :
    lookupR (pySetKey d k v) k = some v := by
  unfold pySetKey
  split
  · rename_i h
    rw [lookupR_transformKey_self]
    cases hl : lookupR d k with
    | none => rw [hl] at h; simp at h
    | some w => simp
  · rename_i h
    rw [lookupR_append]
    cases hl : lookupR d k with
    | none => simp [lookupR]
    | some w => rw [hl] at h; simp at h

theorem lookup_pySetKey_other (d : RawRecord) (k k' : String) (v : PValue) (h : k' ≠ k) :
    lookupR (pySetKey d k v) k' = lookupR d k' := by
  unfold pySetKey
  split
  · exact lookupR_transformKey_other d k k' _ h
  · rw [lookupR_append]
    cases hl : lookupR d k' with
    | none => simp [hl, lookupR, Ne.symm h]
    | some w => simp [hl]

theorem merge_lookup_not_mem (detail : RawRecord) :
    ∀ (profile : RawRecord) (k : String), k ∉ detail.map Prod.fst →
      lookupR (merge_detailed_info profile detail) k = lookupR profile k := by
  induction detail with
  | nil => intro profile k _; rfl
  | cons e t ih =>
    intro profile k h
    simp only [List.map_cons, List.mem_cons] at h
    push_neg at h
    obtain ⟨h1, h2⟩ := h
    have hstep : merge_detailed_info profile (e :: t)
        = merge_detailed_info (if truthy e.2 then pySetKey profile e.1 e.2 else profile) t := rfl
    rw [hstep, ih _ k h2]
    by_cases ht : truthy e.2 = true
    · simp only [if_pos ht]
      exact lookup_pySetKey_other _ _ _ _ h1
    · simp only [if_neg ht]

/-- C3: for every summary dict, detail dict (with dict-unique keys) and
target field, a present truthy detail value overrides the summary value
in the merged profile, while a falsy or missing detail value leaves the
summary value in place (the merge loop of
click_profile_and_extract_details, lines 430-432). -/
theorem C3_theorem (profile detail : RawRecord) (k : String)
    (hnd : (detail.map Prod.fst).Nodup) :
    (∀ v, lookupR detail k = some v → truthy v = true →
      lookupR (merge_detailed_info profile detail) k = some v)
    ∧ (∀ v, lookupR detail k = some v → truthy v = false →
      lookupR (merge_detailed_info profile detail) k = lookupR profile k)
    ∧ (lookupR detail k = Option.none →
      lookupR (merge_detailed_info profile detail) k = lookupR profile k) := by
  induction detail generalizing profile with
  | nil =>
    refine ⟨?_, ?_, ?_⟩
    · intro v hv; simp [lookupR] at hv
    · intro v hv; simp [lookupR] at hv
    · intro _; rfl
  | cons e t ih =>
    simp only [List.map_cons, List.nodup_cons] at hnd
    obtain ⟨hne, hnd2⟩ := hnd
    have hstep : merge_detailed_info profile (e :: t)
        = merge_detailed_info (if truthy e.2 then pySetKey profile e.1 e.2 else profile) t := rfl
    by_cases hk : e.1 = k
    · subst hk
      refine ⟨?_, ?_, ?_⟩
      · intro v hv htr
        have hv2 : e.2 = v := by simpa [lookupR] using hv
        subst hv2
        rw [hstep, merge_lookup_not_mem t _ _ hne]
        simp only [if_pos htr]
        exact lookup_pySetKey_self _ _ _
      · intro v hv htr
        have hv2 : e.2 = v := by simpa [lookupR] using hv
        subst hv2
        rw [hstep, merge_lookup_not_mem t _ _ hne]
        simp [htr]
      · intro hv; simp [lookupR] at hv
    · have hlk : lookupR (e :: t) k = lookupR t k := by simp [lookupR, hk]
      have hstep2 : lookupR (if truthy e.2 then pySetKey profile e.1 e.2 else profile) k
          = lookupR profile k := by
        by_cases ht : truthy e.2 = true
        · simp only [if_pos ht]
          exact lookup_pySetKey_other _ _ _ _ (fun hh => hk hh.symm)
        · simp only [if_neg ht]
      obtain ⟨ih1, ih2, ih3⟩ := ih (if truthy e.2 then pySetKey profile e.1 e.2 else profile) hnd2
      refine ⟨?_, ?_, ?_⟩
      · intro v hv htr
        rw [hstep]
        exact ih1 v (hlk ▸ hv) htr
      · intro v hv htr
        rw [hstep, ih2 v (hlk ▸ hv) htr, hstep2]
      · intro hv
        rw [hstep, ih3 (hlk ▸ hv), hstep2]

/-- C3 witness: a truthy detail value overrides the summary value for
a concrete pair of dicts. -/
theorem C3_witness :
    lookupR (merge_detailed_info witC3profile witC3detail) "a" = some (PValue.str "d") :=
  (C3_theorem witC3profile witC3detail "a" (by decide)).1 (PValue.str "d") (by decide) (by decide)

/-! ## Claim C6 (corrected): expired-cookie exclusion -/

/-- C6 counterexample: the claim fails for a cookie whose
expirationDate is 0.  At current time 100, the cookie `cexC6cookie`
(expirationDate 0 < 100) is NOT excluded — it is returned for the arena
host — and no warning is emitted, because the Python guard
`if expires and expires < current_time` treats the falsy 0 as "no
expiry". -/
theorem C6_counterexample :
    (0 : Int) < 100
    ∧ (load_colosseum_cookies 100 [cexC6cookie]).1.map PwCookie.name = ["foo"]
    ∧ (load_colosseum_cookies 100 [cexC6cookie]).2 = [] := by decide

/-- C6 amended: a matching-domain cookie whose expirationDate is
present, non-zero and strictly less than the current time is excluded
from the output and generates exactly one warning; and the loader is
per-cookie independent (it concatenates per-cookie results), so every
other cookie in the file is returned unaffected.  A cookie with
expirationDate 0 (or none) is treated as non-expiring and retained. -/
theorem C6_theorem :
    (∀ (t e : Int) (c : RawCookie),
      pyInStr "colosseum.org" (c.domain.getD "") = true →
      c.expirationDate = some e → e ≠ 0 → e < t →
      processCookie t c = ([], [c.name.getD ""]))
    ∧ (∀ (t : Int) (cs ds : List RawCookie),
      (load_colosseum_cookies t (cs ++ ds)).1
        = (load_colosseum_cookies t cs).1 ++ (load_colosseum_cookies t ds).1
      ∧ (load_colosseum_cookies t (cs ++ ds)).2
        = (load_colosseum_cookies t cs).2 ++ (load_colosseum_cookies t ds).2) := by
  constructor
  · intro t e c hdom hexp hne hlt
    have hExpired : cookieExpired t c = true := by
      simp [cookieExpired, hexp, bne_iff_ne, hne, hlt]
    simp [processCookie, hdom, hExpired]
  · intro t cs ds
    constructor <;> simp [load_colosseum_cookies, List.map_append, List.flatten_append]

/-- C6 witness: a cookie expired at epoch 50 is excluded and warned at
current time 100. -/
theorem C6_witness : processCookie 100 witC6cookie = ([], ["bar"]) :=
  C6_theorem.1 100 50 witC6cookie (by decide) (by decide) (by decide) (by decide)

/-! ## Claim C7 (corrected): per-host replication -/

/-- C7 counterexample: a matching-domain, non-expired cookie whose name
is not one of the four important cookies is emitted only for
arena.colosseum.org, never for api.colosseum.org — not once per host as
claimed. -/
theorem C7_counterexample :
    (load_colosseum_cookies 100 [cexC7cookie]).1.map PwCookie.domain = ["arena.colosseum.org"]
    ∧ ¬ ("api.colosseum.org" ∈ (load_colosseum_cookies 100 [cexC7cookie]).1.map PwCookie.domain) := by
  decide

/-- C7 amended: every matching-domain, non-expired cookie is emitted for
arena.colosseum.org; exactly the cookies named in `important_cookies`
(sAccessToken, sFrontToken, st-last-access-token-update, __vdpl) are
additionally replicated onto api.colosseum.org; and every emitted copy
differs from the cookie's base Playwright form only in its domain. -/
theorem C7_theorem (t : Int) (c : RawCookie)
    (hdom : pyInStr "colosseum.org" (c.domain.getD "") = true)
    (hexp : cookieExpired t c = false) :
    ((processCookie t c).1.map PwCookie.domain
      = if important_cookies.contains (c.name.getD "") then
          ["arena.colosseum.org", "api.colosseum.org"]
        else ["arena.colosseum.org"])
    ∧ (∀ pc ∈ (processCookie t c).1, { pc with domain := "" } = pwBase c) := by
  constructor
  · by_cases hi : (c.name.getD "") ∈ important_cookies
    · simp [processCookie, hdom, hexp, hi]
    · simp [processCookie, hdom, hexp, hi]
  · intro pc hpc
    simp only [processCookie, hdom, Bool.true_eq_false, if_false, hexp, if_neg] at hpc
    rw [if_neg (by simp)] at hpc
    by_cases hi : important_cookies.contains (c.name.getD "") = true
    · rw [if_pos hi] at hpc
      simp only [List.map_cons, List.map_nil, List.mem_cons, List.not_mem_nil, or_false,
        List.mem_singleton] at hpc
      rcases hpc with h1 | h1 <;> rw [h1]
      · rfl
      · rfl
    · rw [if_neg hi] at hpc
      simp only [List.map_cons, List.map_nil, List.mem_cons, List.not_mem_nil, or_false,
        List.mem_singleton] at hpc
      rw [hpc]
      rfl

/-- C7 witness: the important cookie sAccessToken is emitted for both
hosts. -/
theorem C7_witness :
    (processCookie 100 witC7cookie).1.map PwCookie.domain
      = ["arena.colosseum.org", "api.colosseum.org"] := by
  have h := (C7_theorem 100 witC7cookie (by decide) (by decide)).1
  simpa using h

/-! ## Claim C8 (confirmed): bulk store operation -/

theorem insert_profile_fst (jl : String → Option PValue) (fail : RawRecord → Bool)
    (db : Store) (d : RawRecord) :
    (insert_profile jl fail db d).1 = recordUpsertOk fail d := by
  unfold insert_profile recordUpsertOk
  cases lookupR d "username" with
  | none => rfl
  | some u =>
    by_cases ht : truthy u = true
    · by_cases hf : fail d = true <;> simp [ht, hf]
    · simp [ht]

/-- C8: `insert_batch` returns exactly the number of records on which
the single-record upsert succeeds (each record succeeding or failing
independently of the store state), and processing a batch split at any
point yields the two partial counts added — so a failing record is
uncounted but never aborts the processing of the remaining records. -/
theorem C8_theorem :
    (∀ (jl : String → Option PValue) (fail : RawRecord → Bool) (db : Store)
      (ps : List RawRecord),
      (insert_batch jl fail db ps).1 = ps.countP (recordUpsertOk fail))
    ∧ (∀ (jl : String → Option PValue) (fail : RawRecord → Bool) (db : Store)
      (ps qs : List RawRecord),
      (insert_batch jl fail db (ps ++ qs)).1
        = (insert_batch jl fail db ps).1
          + (insert_batch jl fail (insert_batch jl fail db ps).2 qs).1) := by
  have key : ∀ (jl : String → Option PValue) (fail : RawRecord → Bool)
      (ps : List RawRecord) (db : Store),
      (insert_batch jl fail db ps).1 = ps.countP (recordUpsertOk fail) := by
    intro jl fail ps
    induction ps with
    | nil => intro db; simp [insert_batch]
    | cons d t ih =>
      intro db
      simp only [insert_batch]
      rw [insert_profile_fst, ih]
      rw [List.countP_cons]
      by_cases h : recordUpsertOk fail d = true <;> simp [h, Nat.add_comm]
  refine ⟨fun jl fail db ps => key jl fail ps db, ?_⟩
  intro jl fail db ps qs
  rw [key, key, key, List.countP_append]

/-! ## Claim C9 (corrected): transient fields and persisted data -/

theorem lookupR_eraseKey (d : RawRecord) (k k' : String) :
    lookupR (eraseKey d k) k' = if k' = k then Option.none else lookupR d k' := by
  induction d with
  | nil => simp [eraseKey, lookupR]
  | cons a t ih =>
    simp only [eraseKey] at ih ⊢
    rw [List.filter_cons]
    by_cases ha : a.1 = k
    · rw [if_neg (by simp [ha])]
      rw [ih]
      by_cases hk : k' = k
      · simp [hk]
      · have hak : ¬ a.1 = k' := by rw [ha]; exact fun hh => hk hh.symm
        simp [hk, lookupR, hak]
    · rw [if_pos (by simp [ha])]
      by_cases hk : a.1 = k'
      · have hkk : ¬ k' = k := fun hh => ha (hk.trans hh)
        simp [lookupR, hk, hkk]
      · simp only [lookupR, if_neg hk]
        exact ih


theorem lookup_persisted (jl : String → Option PValue) (d : RawRecord) (k : String)
    (h1 : k ≠ "card_index") (h2 : k ≠ "element") :
    lookupR (persisted_profile_data jl d) k =
      if k ∈ jsonb_fields then (lookupR d k).map (prepareJsonbValue jl) else lookupR d k := by
  unfold persisted_profile_data _prepare_profile_data _clean_profile_data jsonb_fields
  simp only [List.foldl_cons, List.foldl_nil]
  by_cases e1 : k = "tags"
  · subst e1; simp [lookupR_transformKey_other, lookupR_transformKey_self, lookupR_eraseKey]
  by_cases e2 : k = "languages"
  · subst e2; simp [lookupR_transformKey_other, lookupR_transformKey_self, lookupR_eraseKey]
  by_cases e3 : k = "i_am_a_roles"
  · subst e3; simp [lookupR_transformKey_other, lookupR_transformKey_self, lookupR_eraseKey]
  by_cases e4 : k = "looking_for_roles"
  · subst e4; simp [lookupR_transformKey_other, lookupR_transformKey_self, lookupR_eraseKey]
  by_cases e5 : k = "interested_in_topics"
  · subst e5; simp [lookupR_transformKey_other, lookupR_transformKey_self, lookupR_eraseKey]
  rw [lookupR_transformKey_other _ _ _ _ e5, lookupR_transformKey_other _ _ _ _ e4,
      lookupR_transformKey_other _ _ _ _ e3, lookupR_transformKey_other _ _ _ _ e2,
      lookupR_transformKey_other _ _ _ _ e1, lookupR_eraseKey, lookupR_eraseKey, lookupR_eraseKey]
  simp [h1, h2, e1, e2, e3, e4, e5]

theorem persisted_jsonb (jl : String → Option PValue) (d : RawRecord) (f : String)
    (hf : f ∈ jsonb_fields) (h1 : f ≠ "card_index") (h2 : f ≠ "element") :
    lookupR (persisted_profile_data jl d) f = (lookupR d f).map (prepareJsonbValue jl) := by
  rw [lookup_persisted jl d f h1 h2, if_pos hf]

/-- C9 counterexample: fields are NOT all passed through unchanged.  On
the record `cexC9rec` (tags is None) the data written to the store holds
tags = [] where the handed record held None, so the tags field was
rewritten on the way to the store. -/
theorem C9_counterexample :
    lookupR cexC9rec "tags" = some PValue.none
    ∧ lookupR (persisted_profile_data (fun _ => Option.none) cexC9rec) "tags"
        = some (PValue.list [])
    ∧ PValue.none ≠ PValue.list [] := by decide

/-- C9 amended: the data written to the store never contains the
transient card_index or element fields; every field other than those two
and the five jsonb collection fields is passed through unchanged; and a
jsonb field is passed through unchanged when it holds a list, while a
None value becomes [] and a string value is replaced by its JSON parse
(or [] when parsing fails). -/
theorem C9_theorem (jl : String → Option PValue) (d : RawRecord) :
    lookupR (persisted_profile_data jl d) "card_index" = Option.none
    ∧ lookupR (persisted_profile_data jl d) "element" = Option.none
    ∧ (∀ k : String, k ≠ "card_index" → k ≠ "element" → ¬ k ∈ jsonb_fields →
        lookupR (persisted_profile_data jl d) k = lookupR d k)
    ∧ (∀ f : String, f ∈ jsonb_fields →
        (∀ xs, lookupR d f = some (PValue.list xs) →
          lookupR (persisted_profile_data jl d) f = some (PValue.list xs))
        ∧ (lookupR d f = some PValue.none →
          lookupR (persisted_profile_data jl d) f = some (PValue.list []))
        ∧ (∀ s, lookupR d f = some (PValue.str s) →
          lookupR (persisted_profile_data jl d) f = some ((jl s).getD (PValue.list [])))) := by
  refine ⟨?_, ?_, ?_, ?_⟩
  · unfold persisted_profile_data _prepare_profile_data _clean_profile_data jsonb_fields
    simp only [List.foldl_cons, List.foldl_nil]
    simp [lookupR_transformKey_other, lookupR_eraseKey]
  · unfold persisted_profile_data _prepare_profile_data _clean_profile_data jsonb_fields
    simp only [List.foldl_cons, List.foldl_nil]
    simp [lookupR_transformKey_other, lookupR_eraseKey]
  · intro k hk1 hk2 hk3
    rw [lookup_persisted jl d k hk1 hk2, if_neg hk3]
  · intro f hf
    have hne : f ≠ "card_index" ∧ f ≠ "element" := by
      have hall : ∀ g ∈ jsonb_fields, g ≠ "card_index" ∧ g ≠ "element" := by decide
      exact hall f hf
    have hp := persisted_jsonb jl d f hf hne.1 hne.2
    refine ⟨?_, ?_, ?_⟩
    · intro xs hxs; rw [hp, hxs]; rfl
    · intro hxs; rw [hp, hxs]; rfl
    · intro s hs; rw [hp, hs]; rfl

/-- C9 witness: on a concrete record the written data keeps username
and a list-valued tags field unchanged. -/
theorem C9_witness :
    lookupR (persisted_profile_data (fun _ => Option.none) witC9rec) "username"
      = lookupR witC9rec "username"
    ∧ lookupR (persisted_profile_data (fun _ => Option.none) witC9rec) "tags"
      = some (PValue.list ["x"]) :=
  ⟨(C9_theorem (fun _ => Option.none) witC9rec).2.2.1 "username"
      (by decide) (by decide) (by decide),
   ((C9_theorem (fun _ => Option.none) witC9rec).2.2.2 "tags" (by decide)).1 ["x"] (by decide)⟩

/-! ## Claim C1 (code_bug): the per-record persistence callback -/

/-- C1: the call in main, `scraper.scrape_all_profiles(existing_usernames,
max_profiles=..., save_callback=..., reverse=...)` (colosseum_main.py
lines 153-158), passes keyword arguments that the signature of
`scrape_all_profiles` (colosseum_scraper.py line 919) does not declare,
so under Python call semantics the call raises TypeError: the crawl
never runs and no per-record persistence callback is ever invoked (the
body of scrape_all_profiles has no callback parameter at all — it
accumulates the whole batch and returns it at the end). -/
theorem C1_theorem :
    pyKeywordCallAccepted scrape_all_profiles_params main_scrape_call_kwargs = false
    ∧ ¬ "save_callback" ∈ scrape_all_profiles_params := by decide
